import Mathlib

/-!
Verification development for the MDB constraint-extraction program
(`src/extract_mdb_constraints.py`).

The embedding below models the program's core logic over explicit data:

* a database is a list of named tables; a table is an ordered schema
  (column descriptors) plus a list of rows; a row is an association list
  from column name to an optional stored text value (`none` models SQL NULL);
* SQL queries issued by the program are modelled by total Lean functions on
  this data; a query that would raise in Python (missing table or column,
  division by zero) is modelled with `Except String`;
* Python `round(x, n)` (banker's rounding) is modelled on `ℚ` by `pyRoundTo`;
  Python's `/` (raising `ZeroDivisionError` on a zero denominator) is
  modelled by `pyDiv`;
* the Access SQL builtin `VAL` is modelled by `VAL`, restricted to optionally
  sign-prefixed integer text (the only shapes the analysed data uses):
  it parses the longest leading digit run and yields 0 when there is none.

Names follow the Python source where Lean allows it:
`FIELDS_TO_ENUMERATE_COMPLETELY`, `analyze_field_values`,
`perform_rule_checks`, `extract_all_constraints`, ...
-/

/-- Fields that must always be fully enumerated
(source: module constant `FIELDS_TO_ENUMERATE_COMPLETELY`, lines 24-37). -/
def FIELDS_TO_ENUMERATE_COMPLETELY : List String :=
  ["AGGREGATION_INDEX", "AGGREGATION_TYPE", "NRC_CODE", "NRC_DESC", "SUBGROUP_CODE",
   "SUBGROUP_NAME", "APIB_IND", "NYC_IND", "GRADE_LEVEL", "SUBJECT_AREA",
   "COUNTY_CODE", "COUNTY_NAME"]

/-- Fields enumerated only while the distinct count stays under the cap
(source: module constant `FIELDS_TO_ENUMERATE_WITH_LIMIT`, lines 40-45). -/
def FIELDS_TO_ENUMERATE_WITH_LIMIT : List String :=
  ["COURSE_ID", "COURSE_DESC", "STATE_CODE", "ITEM_DESC"]

/-- Floor of a rational number, computed on the numerator/denominator pair. -/
def ratFloor (q : ℚ) : ℤ := q.num.fdiv (q.den : ℤ)

/-- Python `round` to an integer: round half to even (banker's rounding). -/
def pyRound (q : ℚ) : ℤ :=
  if q - (ratFloor q : ℚ) < 1/2 then ratFloor q
  else if 1/2 < q - (ratFloor q : ℚ) then ratFloor q + 1
  else if ratFloor q % 2 = 0 then ratFloor q else ratFloor q + 1

/-- Python `round(q, ndigits)` on exact rationals. -/
def pyRoundTo (ndigits : ℕ) (q : ℚ) : ℚ := (pyRound (q * 10 ^ ndigits) : ℚ) / 10 ^ ndigits

/-- Python division: raises `ZeroDivisionError` on a zero denominator,
modelled as an `Except.error` carrying the Python message. -/
def pyDiv (a b : ℚ) : Except String ℚ :=
  if b = 0 then Except.error "division by zero" else Except.ok (a / b)

/-- Longest leading run of decimal digits of a character list. -/
def leadingDigits : List Char → List Char
  | [] => []
  | c :: cs => if c.isDigit then c :: leadingDigits cs else []

/-- Value of a digit list read in base 10. -/
def digitsToNat (cs : List Char) : ℕ := cs.foldl (fun a c => a * 10 + (c.toNat - 48)) 0

/-- Model of the Access SQL builtin `VAL` on optionally sign-prefixed integer
text: the longest leading digit run (after an optional minus sign) is read as
a number; text with no leading digits yields 0. -/
def VAL (s : String) : ℤ :=
  match s.toList with
  | '-' :: cs => - (digitsToNat (leadingDigits cs) : ℤ)
  | cs => (digitsToNat (leadingDigits cs) : ℤ)

/-- One column descriptor as harvested by `get_table_schema` (lines 82-106);
only the pieces the analysis logic reads are kept. -/
structure ColumnInfo where
  column_name : String
  data_type : String
  column_size : ℕ
  nullable : Bool
deriving DecidableEq

/-- A stored row: association list from column name to optional text value
(`none` models SQL NULL). -/
abbrev DbRow := List (String × Option String)

/-- A table: ordered schema plus rows. -/
structure DbTable where
  schema : List ColumnInfo
  rows : List DbRow
deriving DecidableEq

/-- Column names of a table, in schema order. -/
def DbTable.colNames (t : DbTable) : List String := t.schema.map (fun c => c.column_name)

/-- Value of a column in a row; a key missing from the row reads as NULL. -/
def cellVal (r : DbRow) (c : String) : Option String := (List.lookup c r).getD none

/-- Name resolution for a column reference inside a query: referencing a
column absent from the table's schema makes the query raise. -/
def requireCol (t : DbTable) (c : String) : Except String Unit :=
  if t.colNames.contains c then Except.ok () else Except.error ("no such field: " ++ c)

/-- Name resolution for every column referenced by a query, first failure wins. -/
def requireCols (t : DbTable) : List String → Except String Unit
  | [] => Except.ok ()
  | c :: cs =>
    match requireCol t c with
    | Except.error e => Except.error e
    | Except.ok _ => requireCols t cs

/-- The SQL snippet `IIF([c]='-', 0, VAL([c]))` applied to a level cell
(line 188): the text placeholder `-` reads as 0, other text goes through
`VAL`; per the source comment on line 187, NULL also reads as 0. -/
def lvlE : Option String → ℤ
  | none => 0
  | some s => if s = "-" then 0 else VAL s

/-- The SQL snippet `VAL([c])` applied to a cell; NULL reads as 0. -/
def valE : Option String → ℤ
  | none => 0
  | some s => VAL s

/-- The seven per-level count columns summed by the levels rule (line 192). -/
def LEVEL_COLS : List String :=
  ["level1_cnt", "level2_cnt", "level3_cnt", "level4_cnt", "level5_cnt",
   "level6_cnt", "level7_cnt"]

/-- The seven-term sum expression of the levels rule (line 192). -/
def sumLevels (r : DbRow) : ℤ :=
  lvlE (cellVal r "level1_cnt") + lvlE (cellVal r "level2_cnt") +
  lvlE (cellVal r "level3_cnt") + lvlE (cellVal r "level4_cnt") +
  lvlE (cellVal r "level5_cnt") + lvlE (cellVal r "level6_cnt") +
  lvlE (cellVal r "level7_cnt")

/-- Result of one consistency rule (the dict built on lines 205-209,
227-231 and 249-253). -/
structure CheckResult where
  total_rows : ℕ
  mismatch_rows : ℕ
  mismatch_percentage : ℚ
deriving DecidableEq

/-- The result dict shared by the three rules:
`round(mismatch / total * 100, 4) if total else 0.0`. -/
def mkCheck (total mismatch : ℕ) : CheckResult :=
  ⟨total, mismatch,
    if total ≠ 0 then pyRoundTo 4 ((mismatch : ℚ) / (total : ℚ) * 100) else 0⟩

/-- Columns referenced by the levels-sum mismatch query (lines 197-201). -/
def levelsRuleCols : List String := "tested_student_cnt" :: LEVEL_COLS

/-- Rule 1, `levels_sum_check` (lines 190-211): a row mismatches when
`VAL(tested_student_cnt)` differs from the seven-level sum. -/
def levelsRule (t : DbTable) : Except String CheckResult :=
  match requireCols t levelsRuleCols with
  | Except.error e => Except.error e
  | Except.ok _ =>
    Except.ok (mkCheck t.rows.length
      (t.rows.countP (fun r => valE (cellVal r "tested_student_cnt") != sumLevels r)))

/-- The AP sum expression `level3+level4+level5` (line 215). -/
def apSum (r : DbRow) : ℤ :=
  lvlE (cellVal r "level3_cnt") + lvlE (cellVal r "level4_cnt") +
  lvlE (cellVal r "level5_cnt")

/-- Columns referenced by the AP mismatch query (lines 219-224). -/
def apRuleCols : List String :=
  ["APIB_IND", "proficient_student_cnt", "level3_cnt", "level4_cnt", "level5_cnt"]

/-- Rule 2, `ap_proficient_check` (lines 213-233): restricted to rows with
`APIB_IND = 'AP'`; mismatch when `VAL(proficient_student_cnt)` differs from
`level3+level4+level5`. -/
def apRule (t : DbTable) : Except String CheckResult :=
  match requireCol t "APIB_IND" with
  | Except.error e => Except.error e
  | Except.ok _ =>
    match requireCols t apRuleCols with
    | Except.error e => Except.error e
    | Except.ok _ =>
      Except.ok (mkCheck
        (t.rows.filter (fun r => cellVal r "APIB_IND" == some "AP")).length
        ((t.rows.filter (fun r => cellVal r "APIB_IND" == some "AP")).countP
          (fun r => valE (cellVal r "proficient_student_cnt") != apSum r)))

/-- The IB sum expression `level4+level5+level6+level7` (line 237). -/
def ibSum (r : DbRow) : ℤ :=
  lvlE (cellVal r "level4_cnt") + lvlE (cellVal r "level5_cnt") +
  lvlE (cellVal r "level6_cnt") + lvlE (cellVal r "level7_cnt")

/-- Columns referenced by the IB mismatch query (lines 241-246). -/
def ibRuleCols : List String :=
  ["APIB_IND", "proficient_student_cnt", "level4_cnt", "level5_cnt",
   "level6_cnt", "level7_cnt"]

/-- Rule 3, `ib_proficient_check` (lines 235-255): restricted to rows with
`APIB_IND = 'IB'`; mismatch when `VAL(proficient_student_cnt)` differs from
`level4+level5+level6+level7`. -/
def ibRule (t : DbTable) : Except String CheckResult :=
  match requireCol t "APIB_IND" with
  | Except.error e => Except.error e
  | Except.ok _ =>
    match requireCols t ibRuleCols with
    | Except.error e => Except.error e
    | Except.ok _ =>
      Except.ok (mkCheck
        (t.rows.filter (fun r => cellVal r "APIB_IND" == some "IB")).length
        ((t.rows.filter (fun r => cellVal r "APIB_IND" == some "IB")).countP
          (fun r => valE (cellVal r "proficient_student_cnt") != ibSum r)))

deriving instance DecidableEq for Except

/-- The `results` mapping built by `perform_rule_checks` for an assessment
table: one slot per rule; `Except.error e` models the per-rule
`<ruleName>_check_error` entry holding `str(e)`. -/
structure RuleChecks where
  levels_sum_check : Except String CheckResult
  ap_proficient_check : Except String CheckResult
  ib_proficient_check : Except String CheckResult
deriving DecidableEq

/-- `perform_rule_checks` (lines 173-257): for a non-assessment table the
empty mapping (`none`); for an assessment table, each of the three rules is
attempted inside its own try/except, so each slot holds that rule's own
outcome (value or captured error string). -/
def perform_rule_checks (t : DbTable) (is_assessment : Bool) : Option RuleChecks :=
  if is_assessment then some ⟨levelsRule t, apRule t, ibRule t⟩ else none

/-- Rendering of one group-by bucket value on line 294:
`str(row[0]) if row[0] is not None else 'NULL'`. -/
def renderValue : Option String → String
  | none => "NULL"
  | some s => s

/-- Distinct stored values with their occurrence counts (the GROUP BY of
lines 277-282, before sorting). -/
def groupCounts (vals : List (Option String)) : List (Option String × ℕ) :=
  vals.dedup.map (fun v => (v, vals.count v))

/-- Insertion step of the descending sort by occurrence count. -/
def insertByCount (p : Option String × ℕ) :
    List (Option String × ℕ) → List (Option String × ℕ)
  | [] => [p]
  | q :: qs => if q.2 < p.2 then p :: q :: qs else q :: insertByCount p qs

/-- The `ORDER BY COUNT(*) DESC` of line 281. The source's tie order is the
store's collation order and is documented as non-deterministic; the embedding
fixes one order. -/
def sortByCountDesc (l : List (Option String × ℕ)) : List (Option String × ℕ) :=
  l.foldr insertByCount []

/-- The statistics dict returned by a successful `analyze_field_values`
(lines 289-295). -/
structure FieldStats where
  total_rows : ℕ
  non_null_count : ℕ
  null_count : ℕ
  distinct_count : ℕ
  values_distribution : List (String × ℕ)
deriving DecidableEq

/-- The body of `analyze_field_values` (lines 264-295), i.e. the code inside
its `try`: total-row count, non-null count (`COUNT([field])`), the sorted
group-by distribution, `distinct_count` as the number of group-by rows, and
`null_count = total_rows - non_null_count`. Raises when the table or the
column does not exist. -/
def profileBody (db : List (String × DbTable)) (table_name field_name : String) :
    Except String FieldStats :=
  match List.lookup table_name db with
  | none => Except.error ("table not found: " ++ table_name)
  | some t =>
    match requireCol t field_name with
    | Except.error e => Except.error e
    | Except.ok _ =>
      Except.ok
        ⟨t.rows.length,
         (t.rows.map (fun r => cellVal r field_name)).countP (fun v => v.isSome),
         t.rows.length -
           (t.rows.map (fun r => cellVal r field_name)).countP (fun v => v.isSome),
         (sortByCountDesc (groupCounts (t.rows.map (fun r => cellVal r field_name)))).length,
         (sortByCountDesc (groupCounts (t.rows.map (fun r => cellVal r field_name)))).map
           (fun p => (renderValue p.1, p.2))⟩

/-- Return value of `analyze_field_values`: the statistics dict, or the dict
`{'error': str(e)}` (line 297) when the enclosing try/except caught a failure. -/
inductive ProfileResult where
  | ok (stats : FieldStats)
  | error (msg : String)
deriving DecidableEq

/-- `analyze_field_values` (lines 260-297): the whole body runs inside one
try/except, so every failure is returned as the error-tagged dict; no
exception escapes to the caller. -/
def analyze_field_values (db : List (String × DbTable)) (table_name field_name : String) :
    ProfileResult :=
  match profileBody db table_name field_name with
  | Except.ok s => ProfileResult.ok s
  | Except.error e => ProfileResult.error e

/-- The branch taken by the enumeration decision of lines 377-393; the tag
records which branch fired (the source prints it as `完整枚举` /
`有限枚举` / `自动枚举-值少` / `仅统计-TOP50`). -/
inductive RetentionTag where
  | full
  | bounded
  | autoSmall
  | topK
deriving DecidableEq

/-- Which retained-values key the decision writes into the field-analysis
dict: `all_values` or `top_50_values` (lines 380, 384, 388, 392). -/
structure Retention where
  tag : RetentionTag
  all_values : Option (List (String × ℕ))
  top_50_values : Option (List (String × ℕ))
deriving DecidableEq

/-- The enumeration policy decision of lines 358-393: first match wins among
full enumeration, bounded enumeration (cap 500), auto-small (threshold 20),
and the top-50 fallback (`values_distribution[:50]`). -/
def decideRetention (field_name : String) (distinct_count : ℕ)
    (values_distribution : List (String × ℕ)) : Retention :=
  if field_name ∈ FIELDS_TO_ENUMERATE_COMPLETELY then
    ⟨RetentionTag.full, some values_distribution, none⟩
  else if field_name ∈ FIELDS_TO_ENUMERATE_WITH_LIMIT ∧ distinct_count ≤ 500 then
    ⟨RetentionTag.bounded, some values_distribution, none⟩
  else if distinct_count ≤ 20 then
    ⟨RetentionTag.autoSmall, some values_distribution, none⟩
  else
    ⟨RetentionTag.topK, none, some (values_distribution.take 50)⟩

/-- The per-field analysis dict built on lines 365-393. -/
structure FieldAnalysis where
  data_type : String
  column_size : ℕ
  nullable : Bool
  total_rows : ℕ
  non_null_count : ℕ
  null_count : ℕ
  null_percentage : ℚ
  distinct_count : ℕ
  distinct_percentage : ℚ
  all_values : Option (List (String × ℕ))
  top_50_values : Option (List (String × ℕ))
deriving DecidableEq

/-- Construction of the field-analysis dict (lines 365-393).
`null_percentage` is `round(null_count / total_rows * 100, 2)` with an
unguarded Python division (line 372), so a zero-row table raises
`ZeroDivisionError`; `distinct_percentage` (line 374) is guarded by
`if non_null_count > 0`. The retained-values key is chosen by
`decideRetention`. -/
def build_field_analysis (col : ColumnInfo) (fs : FieldStats) :
    Except String FieldAnalysis :=
  match pyDiv (fs.null_count : ℚ) (fs.total_rows : ℚ) with
  | Except.error e => Except.error e
  | Except.ok q =>
    Except.ok
      ⟨col.data_type, col.column_size, col.nullable,
       fs.total_rows, fs.non_null_count, fs.null_count,
       pyRoundTo 2 (q * 100),
       fs.distinct_count,
       (if 0 < fs.non_null_count then
          pyRoundTo 2 ((fs.distinct_count : ℚ) / (fs.non_null_count : ℚ) * 100)
        else 0),
       (decideRetention col.column_name fs.distinct_count fs.values_distribution).all_values,
       (decideRetention col.column_name fs.distinct_count fs.values_distribution).top_50_values⟩

/-- The per-table entry of the result tree (`table_info`, lines 342-402). -/
structure TableInfo where
  row_count : ℕ
  column_count : ℕ
  field_analysis : List (String × FieldAnalysis)
  rule_checks : Option RuleChecks
deriving DecidableEq

/-- The per-field loop of `extract_all_constraints` (lines 351-397): a
profiling failure is only printed and the field is skipped, but a failure
inside the field-analysis construction (the unguarded division of line 372)
is uncaught and propagates. -/
def analyze_fields (db : List (String × DbTable)) (table_name : String) :
    List ColumnInfo → Except String (List (String × FieldAnalysis))
  | [] => Except.ok []
  | col :: rest =>
    match analyze_field_values db table_name col.column_name with
    | ProfileResult.error _ => analyze_fields db table_name rest
    | ProfileResult.ok fs =>
      match build_field_analysis col fs with
      | Except.error e => Except.error e
      | Except.ok fa =>
        match analyze_fields db table_name rest with
        | Except.error e => Except.error e
        | Except.ok tail => Except.ok ((col.column_name, fa) :: tail)

/-- Analysis of one table (lines 327-404): field analyses plus the rule
checks, which run exactly when the database is the assessment one
(line 400: `is_assessment=(db_name == 'assessment')`). -/
def analyze_table (db : List (String × DbTable)) (table_name : String) (t : DbTable)
    (db_name : String) : Except String TableInfo :=
  match analyze_fields db table_name t.schema with
  | Except.error e => Except.error e
  | Except.ok fas =>
    Except.ok ⟨t.rows.length, t.schema.length, fas,
      perform_rule_checks t (db_name == "assessment")⟩

/-- The per-table loop of `extract_all_constraints`: an uncaught failure in
one table aborts the loop and propagates. -/
def analyze_tables (db : List (String × DbTable)) (db_name : String) :
    List (String × DbTable) → Except String (List (String × TableInfo))
  | [] => Except.ok []
  | (tn, t) :: rest =>
    match analyze_table db tn t db_name with
    | Except.error e => Except.error e
    | Except.ok ti =>
      match analyze_tables db db_name rest with
      | Except.error e => Except.error e
      | Except.ok tail => Except.ok ((tn, ti) :: tail)

/-- `extract_all_constraints` (lines 300-407): one connection is opened at
the start; `conn.close()` (line 406) sits on the straight-line path with no
try/finally, so it runs exactly when every table's analysis completed. The
boolean component records whether the connection was closed. -/
def extract_all_constraints (db : List (String × DbTable)) (db_name : String) :
    Except String (List (String × TableInfo)) × Bool :=
  match analyze_tables db db_name db with
  | Except.ok infos => (Except.ok infos, true)
  | Except.error e => (Except.error e, false)

/-! ## Helper lemmas about the rounding model -/

/-- `pyRound` is the identity on integers. -/
theorem pyRound_intCast (z : ℤ) : pyRound (z : ℚ) = z := by
  have hf : ratFloor (z : ℚ) = z := by
    simp [ratFloor, Rat.intCast_num, Rat.intCast_den, Int.fdiv_one]
  rw [pyRound, hf]
  norm_num

/-- Evaluation rule for `pyRoundTo` when the scaled value is an integer. -/
theorem pyRoundTo_eq (ndigits : ℕ) (q : ℚ) (z : ℤ) (h : q * 10 ^ ndigits = (z : ℚ)) :
    pyRoundTo ndigits q = (z : ℚ) / 10 ^ ndigits := by
  rw [pyRoundTo, h, pyRound_intCast]

/-- A rule result with no mismatching rows reports percentage 0. -/
theorem mkCheck_zero_mismatch (n : ℕ) : mkCheck n 0 = ⟨n, 0, 0⟩ := by
  rw [mkCheck]
  by_cases h : n = 0
  · simp [h]
  · simp only [h, ne_eq, not_false_eq_true, if_true]
    have h0 : ((0 : ℕ) : ℚ) / (n : ℚ) * 100 * 10 ^ 4 = ((0 : ℤ) : ℚ) := by
      norm_num
    rw [pyRoundTo_eq 4 _ 0 h0]
    norm_num

/-! ## Concrete fixtures used by witnesses and counterexamples -/

/-- A frequency distribution with 10000 distinct entries. -/
def wideDist : List (String × ℕ) := (List.range 10000).map (fun i => (toString i, 1))

/-- A descending frequency distribution with 21 distinct entries. -/
def dist21 : List (String × ℕ) := (List.range 21).map (fun i => (toString i, 21 - i))

/-- A descending frequency distribution with 20 distinct entries. -/
def dist20 : List (String × ℕ) := (List.range 20).map (fun i => (toString i, 20 - i))

/-! ## Enumeration policy claims -/

/-- Claim C1: retention is decided first-match-wins in the order full,
bounded, auto-small, top-K; for a column in the full-enumeration set the
whole distribution is retained under the `all_values` key with tag `full`,
whatever its distinct count, so it can never fall through to the bounded
cap, the auto-small threshold or the top-K truncation. -/
theorem full_enumeration_retains_all (field_name : String) (distinct_count : ℕ)
    (values_distribution : List (String × ℕ))
    (h : field_name ∈ FIELDS_TO_ENUMERATE_COMPLETELY) :
    decideRetention field_name distinct_count values_distribution =
      ⟨RetentionTag.full, some values_distribution, none⟩ := by
  rw [decideRetention, if_pos h]

/-- Witness for C1: the configured column `SUBGROUP_CODE` with distinct
count 10000 retains all 10000 entries with tag `full`. -/
theorem full_enumeration_retains_all_witness :
    decideRetention "SUBGROUP_CODE" 10000 wideDist =
      ⟨RetentionTag.full, some wideDist, none⟩ ∧ wideDist.length = 10000 :=
  ⟨full_enumeration_retains_all "SUBGROUP_CODE" 10000 wideDist (by decide),
   by simp [wideDist]⟩

/-- Claim C2 counterexample: a column in neither configured set with
distinct count 21 does take the top-K branch, but `[:50]` of its 21-entry
distribution retains all 21 entries, not the claimed exactly 50. -/
theorem topK_at_21_retains_21_not_50 :
    decideRetention "ZZZ" 21 dist21 = ⟨RetentionTag.topK, none, some dist21⟩ ∧
    dist21.length = 21 := by
  have hlen : dist21.length = 21 := by simp [dist21]
  refine ⟨?_, hlen⟩
  rw [decideRetention, if_neg (by decide), if_neg (by decide), if_neg (by decide),
    List.take_of_length_le (by omega)]

/-- Claim C2 as amended: for a column in neither configured set, distinct
count 21 takes the top-K branch and retains min(21, 50) = 21 entries (the
whole descending-order distribution), and distinct count 20 takes the
auto-small branch and retains all 20 entries. -/
theorem topK_and_autoSmall_thresholds (field_name : String)
    (d21 d20 : List (String × ℕ))
    (h1 : field_name ∉ FIELDS_TO_ENUMERATE_COMPLETELY)
    (h2 : field_name ∉ FIELDS_TO_ENUMERATE_WITH_LIMIT)
    (h21 : d21.length = 21) (h20 : d20.length = 20) :
    decideRetention field_name 21 d21 = ⟨RetentionTag.topK, none, some d21⟩ ∧
    decideRetention field_name 20 d20 = ⟨RetentionTag.autoSmall, some d20, none⟩ := by
  constructor
  · rw [decideRetention, if_neg h1, if_neg (fun hc => h2 hc.1), if_neg (by norm_num),
      List.take_of_length_le (by omega)]
  · rw [decideRetention, if_neg h1, if_neg (fun hc => h2 hc.1), if_pos (by norm_num)]

/-- Witness for the amended C2 at the concrete column name `ZZZ`. -/
theorem topK_and_autoSmall_thresholds_witness :
    decideRetention "ZZZ" 21 dist21 = ⟨RetentionTag.topK, none, some dist21⟩ ∧
    decideRetention "ZZZ" 20 dist20 = ⟨RetentionTag.autoSmall, some dist20, none⟩ :=
  topK_and_autoSmall_thresholds "ZZZ" dist21 dist20 (by decide) (by decide)
    (by simp [dist21]) (by simp [dist20])

/-- Claim C10: the four policy branches are exhaustive and mutually
exclusive: every decision populates exactly one retained-values key -
either `all_values` or `top_50_values`, never both and never neither. -/
theorem retention_exactly_one_key (field_name : String) (distinct_count : ℕ)
    (values_distribution : List (String × ℕ)) :
    ((decideRetention field_name distinct_count values_distribution).all_values.isSome = true ∧
     (decideRetention field_name distinct_count values_distribution).top_50_values = none) ∨
    ((decideRetention field_name distinct_count values_distribution).all_values = none ∧
     (decideRetention field_name distinct_count values_distribution).top_50_values.isSome = true) := by
  rw [decideRetention]
  split
  · exact Or.inl ⟨rfl, rfl⟩
  split
  · exact Or.inl ⟨rfl, rfl⟩
  split
  · exact Or.inl ⟨rfl, rfl⟩
  · exact Or.inr ⟨rfl, rfl⟩

/-! ## Value profiler claims -/

/-- A table holding one genuine NULL and one stored text value `NULL`. -/
def nullCollisionTable : DbTable :=
  ⟨[⟨"c", "VARCHAR", 10, true⟩], [[("c", none)], [("c", some "NULL")]]⟩

/-- Claim C9: the profiler renders every bucket with
`str(row[0]) if row[0] is not None else 'NULL'`, so the null bucket's label
is the very string a stored value `"NULL"` also receives: a profiled
distribution cannot distinguish the two, as the concrete two-row table with
one NULL and one stored `"NULL"` shows - both buckets get label `NULL`. -/
theorem null_bucket_label_collision :
    (∀ v : Option String, renderValue v = "NULL" ↔ v = none ∨ v = some "NULL") ∧
    profileBody [("T", nullCollisionTable)] "T" "c" =
      Except.ok ⟨2, 1, 1, 2, [("NULL", 1), ("NULL", 1)]⟩ := by
  constructor
  · intro v
    cases v with
    | none => simp [renderValue]
    | some s => simp [renderValue]
  · decide

/-! ## Field statistics claims -/

/-- A one-column descriptor used by the zero-row fixtures. -/
def colX : ColumnInfo := ⟨"X", "VARCHAR", 10, true⟩

/-- A table with one column and no rows. -/
def emptyTable : DbTable := ⟨[colX], []⟩

/-- The statistics the profiler reports for a column of a zero-row table. -/
def emptyStats : FieldStats := ⟨0, 0, 0, 0, []⟩

/-- Claim C3 (code bug): on a zero-row table the profiler succeeds with
totalRows = 0, but the field-analysis construction then raises
ZeroDivisionError computing nullPercentage (line 372 has no totalRows == 0
guard, unlike distinctPercentage on line 374), instead of reporting 0. -/
theorem null_percentage_divides_by_zero_on_empty_table :
    analyze_field_values [("T0", emptyTable)] "T0" "X" = ProfileResult.ok emptyStats ∧
    build_field_analysis colX emptyStats = Except.error "division by zero" :=
  ⟨by decide, by decide⟩

/-! ## Consistency rule claims -/

/-- Percentage field of a rule result, characterized against its own total
and mismatch counts. -/
theorem mkCheck_percentage (total mismatch : ℕ) :
    (mkCheck total mismatch).mismatch_percentage =
      if (mkCheck total mismatch).total_rows = 0 then 0
      else pyRoundTo 4 (((mkCheck total mismatch).mismatch_rows : ℚ) /
        ((mkCheck total mismatch).total_rows : ℚ) * 100) := by
  by_cases h : total = 0 <;> simp [mkCheck, h]

/-- Schema of an assessment table carrying every column the three rules
reference. -/
def assessColumns : List ColumnInfo :=
  [⟨"APIB_IND", "VARCHAR", 2, true⟩,
   ⟨"tested_student_cnt", "VARCHAR", 10, true⟩,
   ⟨"proficient_student_cnt", "VARCHAR", 10, true⟩,
   ⟨"level1_cnt", "VARCHAR", 10, true⟩,
   ⟨"level2_cnt", "VARCHAR", 10, true⟩,
   ⟨"level3_cnt", "VARCHAR", 10, true⟩,
   ⟨"level4_cnt", "VARCHAR", 10, true⟩,
   ⟨"level5_cnt", "VARCHAR", 10, true⟩,
   ⟨"level6_cnt", "VARCHAR", 10, true⟩,
   ⟨"level7_cnt", "VARCHAR", 10, true⟩]

/-- An assessment table with all rule columns and no rows. -/
def emptyAssessTable : DbTable := ⟨assessColumns, []⟩

/-- Claim C4: for each of the three rules, a reported result carries
mismatchPercentage = mismatchRows/totalRows×100 rounded to 4 decimal places
when totalRows > 0 and exactly 0 when that rule's totalRows = 0; each rule
guards its own division, so a zero-row table yields 0, not a division
error. -/
theorem rule_mismatch_percentage_guarded (t : DbTable) (res : CheckResult) :
    (levelsRule t = Except.ok res →
      res.mismatch_percentage =
        if res.total_rows = 0 then 0
        else pyRoundTo 4 ((res.mismatch_rows : ℚ) / (res.total_rows : ℚ) * 100)) ∧
    (apRule t = Except.ok res →
      res.mismatch_percentage =
        if res.total_rows = 0 then 0
        else pyRoundTo 4 ((res.mismatch_rows : ℚ) / (res.total_rows : ℚ) * 100)) ∧
    (ibRule t = Except.ok res →
      res.mismatch_percentage =
        if res.total_rows = 0 then 0
        else pyRoundTo 4 ((res.mismatch_rows : ℚ) / (res.total_rows : ℚ) * 100)) := by
  refine ⟨?_, ?_, ?_⟩
  · intro h
    cases hr : requireCols t levelsRuleCols with
    | error e => simp [levelsRule, hr] at h
    | ok u =>
      simp [levelsRule, hr] at h
      rw [← h]
      exact mkCheck_percentage _ _
  · intro h
    cases hr1 : requireCol t "APIB_IND" with
    | error e => simp [apRule, hr1] at h
    | ok u =>
      cases hr2 : requireCols t apRuleCols with
      | error e => simp [apRule, hr1, hr2] at h
      | ok v =>
        simp [apRule, hr1, hr2] at h
        rw [← h]
        exact mkCheck_percentage _ _
  · intro h
    cases hr1 : requireCol t "APIB_IND" with
    | error e => simp [ibRule, hr1] at h
    | ok u =>
      cases hr2 : requireCols t ibRuleCols with
      | error e => simp [ibRule, hr1, hr2] at h
      | ok v =>
        simp [ibRule, hr1, hr2] at h
        rw [← h]
        exact mkCheck_percentage _ _

/-- Witness for C4: on the zero-row assessment table all three rules report
total 0, mismatch 0, percentage exactly 0, and the percentage satisfies the
guarded formula. -/
theorem rule_mismatch_percentage_guarded_witness :
    perform_rule_checks emptyAssessTable true =
      some ⟨Except.ok ⟨0, 0, 0⟩, Except.ok ⟨0, 0, 0⟩, Except.ok ⟨0, 0, 0⟩⟩ ∧
    (⟨0, 0, 0⟩ : CheckResult).mismatch_percentage =
      (if (⟨0, 0, 0⟩ : CheckResult).total_rows = 0 then 0
       else pyRoundTo 4 (((⟨0, 0, 0⟩ : CheckResult).mismatch_rows : ℚ) /
         ((⟨0, 0, 0⟩ : CheckResult).total_rows : ℚ) * 100)) :=
  ⟨by decide, (rule_mismatch_percentage_guarded emptyAssessTable ⟨0, 0, 0⟩).1 (by decide)⟩

/-- Spec-side mismatch predicate of the levels rule, phrased the way the
claim states it: the tested-count field (through `VAL`) differs from the sum
of the seven level fields after normalization. -/
def levelsMismatchRow (r : DbRow) : Bool :=
  valE (cellVal r "tested_student_cnt") != (LEVEL_COLS.map (fun c => lvlE (cellVal r c))).sum

/-- Claim C5 (part 1): on any table carrying the referenced columns, the
levels rule counts exactly the rows whose tested count differs from the
normalized sum of level1..level7 (placeholder `-` read as 0, numeric text
parsed as a number). -/
theorem levels_sum_rule_counts_mismatches (t : DbTable)
    (h : requireCols t levelsRuleCols = Except.ok ()) :
    levelsRule t = Except.ok (mkCheck t.rows.length (t.rows.countP levelsMismatchRow)) := by
  have hsum : ∀ r : DbRow, sumLevels r = (LEVEL_COLS.map (fun c => lvlE (cellVal r c))).sum := by
    intro r
    simp only [sumLevels, LEVEL_COLS, List.map_cons, List.map_nil, List.sum_cons,
      List.sum_nil]
    ring
  have hcnt : t.rows.countP (fun r => valE (cellVal r "tested_student_cnt") != sumLevels r)
      = t.rows.countP levelsMismatchRow := by
    refine List.countP_congr (fun r hr => ?_)
    simp [levelsMismatchRow, hsum r]
  simp only [levelsRule, h]
  rw [hcnt]

/-- Schema of the two-row example table of the levels-sum scenario. -/
def levelsExampleColumns : List ColumnInfo :=
  [⟨"tested_student_cnt", "VARCHAR", 10, true⟩,
   ⟨"level1_cnt", "VARCHAR", 10, true⟩,
   ⟨"level2_cnt", "VARCHAR", 10, true⟩,
   ⟨"level3_cnt", "VARCHAR", 10, true⟩,
   ⟨"level4_cnt", "VARCHAR", 10, true⟩,
   ⟨"level5_cnt", "VARCHAR", 10, true⟩,
   ⟨"level6_cnt", "VARCHAR", 10, true⟩,
   ⟨"level7_cnt", "VARCHAR", 10, true⟩]

/-- Row whose levels (with `-` placeholders read as 0) sum to the tested
count: 2+3+5+0+0+0+0 = 10. -/
def levelsRow1 : DbRow :=
  [("tested_student_cnt", some "10"), ("level1_cnt", some "2"), ("level2_cnt", some "3"),
   ("level3_cnt", some "5"), ("level4_cnt", some "-"), ("level5_cnt", some "-"),
   ("level6_cnt", some "0"), ("level7_cnt", some "0")]

/-- Row whose levels sum to 7 against a tested count of 10: a mismatch. -/
def levelsRow2 : DbRow :=
  [("tested_student_cnt", some "10"), ("level1_cnt", some "1"), ("level2_cnt", some "1"),
   ("level3_cnt", some "1"), ("level4_cnt", some "1"), ("level5_cnt", some "1"),
   ("level6_cnt", some "1"), ("level7_cnt", some "1")]

/-- The two-row example table of the claim's scenario. -/
def levelsExampleTable : DbTable := ⟨levelsExampleColumns, [levelsRow1, levelsRow2]⟩

/-- Witness for C5 (part 2): on the two-row scenario table the levels rule
reports totalRows 2, mismatchRows 1, mismatchPercentage 50. -/
theorem levels_sum_rule_counts_mismatches_witness :
    levelsRule levelsExampleTable = Except.ok ⟨2, 1, 50⟩ := by
  rw [levels_sum_rule_counts_mismatches levelsExampleTable (by decide)]
  have h1 : levelsExampleTable.rows.length = 2 := by decide
  have h2 : levelsExampleTable.rows.countP levelsMismatchRow = 1 := by decide
  rw [h1, h2]
  have h3 : mkCheck 2 1 = ⟨2, 1, 50⟩ := by
    rw [mkCheck, if_pos (show (2 : ℕ) ≠ 0 by norm_num)]
    have h4 : ((1 : ℕ) : ℚ) / ((2 : ℕ) : ℚ) * 100 * 10 ^ 4 = ((500000 : ℤ) : ℚ) := by
      norm_num
    rw [pyRoundTo_eq 4 _ 500000 h4]
    norm_num
  rw [h3]

/-- Claim C6: the engine runs the three rules in their own try/except
blocks: a failing rule's message is captured in that rule's own slot of the
result mapping, no exception propagates, and the other two rules are still
attempted and report their own outcomes. -/
theorem rule_failure_is_isolated (t : DbTable) (e : String)
    (h : levelsRule t = Except.error e) :
    perform_rule_checks t true = some ⟨Except.error e, apRule t, ibRule t⟩ := by
  simp [perform_rule_checks, h]

/-- One AP row whose proficient count 8 equals level3+level4+level5 = 5+2+1. -/
def apOnlyRow : DbRow :=
  [("APIB_IND", some "AP"), ("proficient_student_cnt", some "8"),
   ("level1_cnt", some "0"), ("level2_cnt", some "0"), ("level3_cnt", some "5"),
   ("level4_cnt", some "2"), ("level5_cnt", some "1"), ("level6_cnt", some "0"),
   ("level7_cnt", some "0")]

/-- An assessment table whose schema lacks `tested_student_cnt`, so the
levels rule fails while both proficiency rules can still run. -/
def missingTestedTable : DbTable :=
  ⟨[⟨"APIB_IND", "VARCHAR", 2, true⟩,
    ⟨"proficient_student_cnt", "VARCHAR", 10, true⟩,
    ⟨"level1_cnt", "VARCHAR", 10, true⟩,
    ⟨"level2_cnt", "VARCHAR", 10, true⟩,
    ⟨"level3_cnt", "VARCHAR", 10, true⟩,
    ⟨"level4_cnt", "VARCHAR", 10, true⟩,
    ⟨"level5_cnt", "VARCHAR", 10, true⟩,
    ⟨"level6_cnt", "VARCHAR", 10, true⟩,
    ⟨"level7_cnt", "VARCHAR", 10, true⟩],
   [apOnlyRow]⟩

/-- Witness for C6: with `tested_student_cnt` absent the levels rule's
failure is captured as its own error entry while the AP rule still reports
1 row checked with 0 mismatches and the IB rule reports 0 rows. -/
theorem rule_failure_is_isolated_witness :
    perform_rule_checks missingTestedTable true =
      some ⟨Except.error "no such field: tested_student_cnt",
        Except.ok ⟨1, 0, 0⟩, Except.ok ⟨0, 0, 0⟩⟩ := by
  rw [rule_failure_is_isolated missingTestedTable "no such field: tested_student_cnt"
    (by decide)]
  have hap : apRule missingTestedTable = Except.ok ⟨1, 0, 0⟩ := by
    simp only [apRule,
      show requireCol missingTestedTable "APIB_IND" = Except.ok () from by decide,
      show requireCols missingTestedTable apRuleCols = Except.ok () from by decide,
      show (missingTestedTable.rows.filter
        (fun r => cellVal r "APIB_IND" == some "AP")).length = 1 from by decide,
      show (missingTestedTable.rows.filter
          (fun r => cellVal r "APIB_IND" == some "AP")).countP
          (fun r => valE (cellVal r "proficient_student_cnt") != apSum r) = 0
        from by decide]
    rw [mkCheck_zero_mismatch]
  have hib : ibRule missingTestedTable = Except.ok ⟨0, 0, 0⟩ := by decide
  rw [hap, hib]

/-! ## Profiler error contract and connection lifecycle claims -/

/-- A one-column, one-row table used by the profiler error fixtures. -/
def smallTable : DbTable := ⟨[⟨"c", "VARCHAR", 5, true⟩], [[("c", some "v")]]⟩

/-- A database holding only `smallTable` under the name `T`. -/
def smallDb : List (String × DbTable) := [("T", smallTable)]

/-- Claim C7 counterexample: a nonexistent column (or table) does not make
the profiler fail with a LookupError: the failure is caught by the
profiler's blanket try/except and comes back as the same error-tagged
result dict used for every other query failure. -/
theorem profiler_returns_tagged_error_not_lookup_error :
    analyze_field_values smallDb "T" "nope" = ProfileResult.error "no such field: nope" ∧
    analyze_field_values smallDb "U" "c" = ProfileResult.error "table not found: U" :=
  ⟨by decide, by decide⟩

/-- Claim C7 as amended: every underlying query failure - a nonexistent
table or column included - is returned as the error-tagged result carrying
the driver's message; no exception propagates, so callers can check the tag
before reading the statistical fields. -/
theorem profiler_tags_all_failures (db : List (String × DbTable))
    (table_name field_name : String) :
    (List.lookup table_name db = none →
      analyze_field_values db table_name field_name =
        ProfileResult.error ("table not found: " ++ table_name)) ∧
    (∀ t : DbTable, List.lookup table_name db = some t →
      t.colNames.contains field_name = false →
      analyze_field_values db table_name field_name =
        ProfileResult.error ("no such field: " ++ field_name)) := by
  constructor
  · intro h
    simp [analyze_field_values, profileBody, h]
  · intro t h hc
    have hm : field_name ∉ t.colNames := by simpa using hc
    simp [analyze_field_values, profileBody, h, requireCol, hm]

/-- Witness for the amended C7 at concrete missing-table and missing-column
inputs. -/
theorem profiler_tags_all_failures_witness :
    analyze_field_values smallDb "V" "c" =
      ProfileResult.error ("table not found: " ++ "V") ∧
    analyze_field_values smallDb "T" "gone" =
      ProfileResult.error ("no such field: " ++ "gone") :=
  ⟨(profiler_tags_all_failures smallDb "V" "c").1 (by decide),
   (profiler_tags_all_failures smallDb "T" "gone").2 smallTable (by decide) (by decide)⟩

/-- Claim C8 counterexample: a failure while analysing one table does leak
the connection: the zero-row table makes the field-analysis step raise an
uncaught ZeroDivisionError, and `conn.close()` on the straight-line path is
skipped (closed-flag false). -/
theorem connection_leaked_on_uncaught_table_failure :
    extract_all_constraints [("t1", emptyTable)] "course" =
      (Except.error "division by zero", false) := by decide

/-- Claim C8 as amended: the single per-database connection is closed
exactly when the whole per-table analysis loop runs to completion; failures
that the code catches (per-column profiling, per-rule checks) do not
prevent the close, while an uncaught failure skips it. -/
theorem connection_closed_iff_analysis_completes (db : List (String × DbTable))
    (db_name : String) :
    (extract_all_constraints db db_name).2 = (analyze_tables db db_name db).isOk := by
  unfold extract_all_constraints
  cases analyze_tables db db_name db <;> rfl
